import Mathlib

/-!
Verification of the London Cocktail Week web application core.

A shallow embedding of `src/app.py`: the data-loading pipeline (`load_data`),
the per-request bar filtering pipeline of the `index` handler (text query and
preference filtering), the map-centre computation, the marker categorisation,
and the `bar_details` handler.

Modelling conventions:
* A pandas `DataFrame` of bars is a `List BarRecord`; its `RangeIndex` labels
  are materialised with `List.enum`, so filtered frames become lists of
  `(original index, record)` pairs, exactly as `DataFrame.iterrows` yields them.
* `Series.mean()` over rationals: the empty series yields `NaN` in pandas,
  modelled here as `none : Option Rat`.
* File-system outcomes seen by `load_data` are an explicit environment value
  (`DataEnv`): whether each CSV path exists, and the parse outcome of each
  read, mirroring the `try/except` structure of the source.
* `Series.str.contains(pat, case=False, na=False)` interprets `pat` as a
  regular expression (`regex=True` is the pandas default).  The embedding
  `reSearch` covers the fragment of that regex language generated by literal
  characters and the metacharacter `.` (match any character except newline),
  which is all that is needed to separate regex search from plain substring
  containment.
-/

namespace LCW

/-- One row of the bars CSV, with the columns the application reads. -/
structure BarRecord where
  barName : String
  address : String
  phoneNumber : String
  description : String
  neighbourhood : String
  cityDistrict : String
  mon : String
  tue : String
  wed : String
  thu : String
  fri : String
  sat : String
  sun : String
  latitude : Rat
  longitude : Rat
  rPreference : Bool
  fPreference : Bool
deriving Repr, DecidableEq

/-- One row of the drinks CSV; the application never reads its fields. -/
structure DrinkRecord where
  raw : String
deriving Repr, DecidableEq

/-! ## Text matching (`Series.str.contains`, `app.py` line 143) -/

/-- Anchored match of a pattern against the start of a string, for the regex
fragment of literal characters plus `.` (any character except newline),
as used by Python `re` without the DOTALL flag. -/
def reMatchHere : List Char → List Char → Bool
  | [], _ => true
  | _ :: _, [] => false
  | p :: ps, c :: cs => (p == c || (p == '.' && c != '\n')) && reMatchHere ps cs

/-- Unanchored regex search (`re.search` semantics): the pattern may match at
any position of the string. -/
def reSearch (p : List Char) : List Char → Bool
  | [] => reMatchHere p []
  | c :: cs => reMatchHere p (c :: cs) || reSearch p cs

/-- The character list of a string with Python `str.lower()` applied,
modelled character by character (ASCII case mapping, as `Char.toLower`).
Working on character lists keeps every definition kernel-computable;
`lowerChars_eq` below identifies this with `String.toLower`. -/
def lowerChars (s : String) : List Char :=
  s.toList.map Char.toLower

/-- Python `str.strip()` on a character list: drop whitespace from both
ends. -/
def trimChars (l : List Char) : List Char :=
  ((l.dropWhile Char.isWhitespace).reverse.dropWhile Char.isWhitespace).reverse

/-- `Series.str.contains(pat, case=False, na=False)` on one cell `s`:
case-insensitive regex search of `pat` inside `s` (pandas default
`regex=True`).  `case=False` (the `IGNORECASE` flag) is modelled by
lowering both sides. -/
def strContainsCF (s pat : String) : Bool :=
  reSearch (lowerChars pat) (lowerChars s)

/-- Anchored literal match: the first list is literally a prefix of the
second. -/
def matchHere : List Char → List Char → Bool
  | [], _ => true
  | _ :: _, [] => false
  | p :: ps, c :: cs => p == c && matchHere ps cs

/-- Literal substring search: the first list occurs contiguously somewhere in
the second. -/
def occursIn (p : List Char) : List Char → Bool
  | [] => matchHere p []
  | c :: cs => matchHere p (c :: cs) || occursIn p cs

/-- The spec's wording of the text predicate: the record's name contains the
query as a case-insensitive substring. -/
def substrCI (s pat : String) : Bool :=
  occursIn (lowerChars pat) (lowerChars s)

/-- The characters that are metacharacters of Python's `re` syntax; a pattern
avoiding all of them is matched purely literally. -/
def isRegexMeta (c : Char) : Bool :=
  c == '.' || c == '^' || c == '$' || c == '*' || c == '+' || c == '?' ||
  c == '{' || c == '}' || c == '[' || c == ']' || c == '\\' || c == '|' ||
  c == '(' || c == ')'

/-! ## The filtering pipeline of the `index` handler (`app.py` lines 137-153) -/

/-- `request.args.get("query", "").strip().lower()` (line 137), modelled on
the character list. -/
def processQuery (raw : String) : String :=
  ⟨(trimChars raw.toList).map Char.toLower⟩

/-- The text-filter step (lines 142-143): when the processed query is
non-empty, keep the rows whose `Bar Name` matches it under
`str.contains(query, case=False, na=False)`. -/
def textFilter (query : String) (rows : List (Nat × BarRecord)) :
    List (Nat × BarRecord) :=
  if query.isEmpty then rows
  else rows.filter fun ir => strContainsCF ir.2.barName query

/-- The preference-filter step (lines 146-153): the four recognised values of
the `preference` parameter select rows by the two boolean flag columns; any
other value falls through every `elif` and leaves the rows unchanged. -/
def prefFilter (preference : String) (rows : List (Nat × BarRecord)) :
    List (Nat × BarRecord) :=
  if preference == "r" then rows.filter fun ir => ir.2.rPreference
  else if preference == "f" then rows.filter fun ir => ir.2.fPreference
  else if preference == "both" then
    rows.filter fun ir => ir.2.rPreference && ir.2.fPreference
  else if preference == "none" then
    rows.filter fun ir => !ir.2.rPreference && !ir.2.fPreference
  else rows

/-- The whole per-request filter: `filtered_df = bars_df.copy()` materialised
as the enumerated row list, then the text filter, then the preference
filter. -/
def filterBars (rawQuery preference : String) (bars : List BarRecord) :
    List (Nat × BarRecord) :=
  prefFilter preference (textFilter (processQuery rawQuery) bars.enum)

/-! ## Map centre (`app.py` lines 155-158) -/

/-- `Series.mean()` over rational cell values: `none` models pandas' `NaN`
result on the empty series. -/
def ratMean (l : List Rat) : Option Rat :=
  if l.isEmpty then none else some (l.sum / l.length)

/-- The `map_center` computation: the source tests `filtered_df.empty` but
computes the identical pair of column means in both branches. -/
def computeCenter (rows : List (Nat × BarRecord)) : Option Rat × Option Rat :=
  if !rows.isEmpty then
    (ratMean (rows.map fun ir => ir.2.latitude),
     ratMean (rows.map fun ir => ir.2.longitude))
  else
    (ratMean (rows.map fun ir => ir.2.latitude),
     ratMean (rows.map fun ir => ir.2.longitude))

/-! ## Marker categorisation (`app.py` lines 169-183) -/

/-- A folium marker's visual category: colour and icon identifiers. -/
structure Marker where
  colour : String
  icon : String
deriving Repr, DecidableEq

/-- The marker chosen for a row from its two preference flags (the if/elif
chain of lines 172-183).  `"lightgray"` and `"face-frown"` are the folium
identifiers the spec's table calls light-gray and frown. -/
def markerFor (rec : BarRecord) : Marker :=
  if rec.rPreference && rec.fPreference then ⟨"red", "star"⟩
  else if rec.rPreference && !rec.fPreference then ⟨"orange", "lemon"⟩
  else if rec.fPreference && !rec.rPreference then ⟨"green", "cat"⟩
  else ⟨"lightgray", "face-frown"⟩

/-- The spec's 4-row table for `markerFor`, written directly on the flag
pair. -/
def markerTable : Bool → Bool → Marker
  | true, true => ⟨"red", "star"⟩
  | true, false => ⟨"orange", "lemon"⟩
  | false, true => ⟨"green", "cat"⟩
  | false, false => ⟨"lightgray", "face-frown"⟩

/-! ## Record Store (`load_data`, `app.py` lines 16-51) -/

/-- Outcome of attempting `pd.read_csv` on one existing file: a parsed row
list, an `EmptyDataError` (file has no rows/columns), or any other
exception; the latter two carry the exception's message. -/
inductive ReadResult (α : Type) where
  | ok : List α → ReadResult α
  | emptyData : String → ReadResult α
  | otherError : String → ReadResult α
deriving Repr, DecidableEq

/-- The file-system environment `load_data` runs against: existence of each
CSV path and the outcome a read of each would produce. -/
structure DataEnv where
  barsExists : Bool
  drinksExists : Bool
  barsRead : ReadResult BarRecord
  drinksRead : ReadResult DrinkRecord
deriving Repr, DecidableEq

/-- The `FileNotFoundError` message raised for the bars path (line 34),
wrapped by the handler of line 44. -/
def missingBarsMsg : String :=
  "Missing data file — File not found: data/bars.csv"

/-- The `FileNotFoundError` message raised for the drinks path (line 36),
wrapped by the handler of line 44. -/
def missingDrinksMsg : String :=
  "Missing data file — File not found: data/drinks.csv"

/-- `load_data()`: both frames start empty (lines 29-30); a missing path
raises `FileNotFoundError` before either read; the bars file is read before
the drinks file, so a failure reading drinks leaves `bars_df` already
assigned while `drinks_df` is still the initial empty frame. -/
def load_data (env : DataEnv) :
    List BarRecord × List DrinkRecord × Option String :=
  if !env.barsExists then ([], [], some missingBarsMsg)
  else if !env.drinksExists then ([], [], some missingDrinksMsg)
  else
    match env.barsRead with
    | .ok bars =>
      match env.drinksRead with
      | .ok drinks => (bars, drinks, none)
      | .emptyData msg => (bars, [], some ("Data file is empty — " ++ msg))
      | .otherError msg =>
        (bars, [], some ("Unexpected error loading data — " ++ msg))
    | .emptyData msg => ([], [], some ("Data file is empty — " ++ msg))
    | .otherError msg =>
      ([], [], some ("Unexpected error loading data — " ++ msg))

/-! ## Request handlers (`index` lines 53-199, `bar_details` lines 201-277) -/

/-- The process-wide state set once at startup:
`bars_df, drinks_df, error_message = load_data()` (line 51). -/
structure AppState where
  bars_df : List BarRecord
  drinks_df : List DrinkRecord
  error_message : Option String
deriving Repr, DecidableEq

/-- `AppState` as produced by startup from an environment. -/
def initState (env : DataEnv) : AppState :=
  let r := load_data env
  ⟨r.1, r.2.1, r.2.2⟩

/-- The data content of a successful `index` response: the filtered rows, the
map centre, and per row the marker category keyed by the original index used
in the popup's `/bar/{idx}` link. -/
structure PageModel where
  rows : List (Nat × BarRecord)
  center : Option Rat × Option Rat
  markers : List (Nat × Marker)
deriving Repr, DecidableEq

/-- The prefix of the degraded response of line 64. -/
def degradedPrefix : String := "⚠️ London Cocktail Week 2025! "

/-- The data content of the page served by `bar_details` on success: exactly
the columns interpolated into the detail card (lines 259-272). -/
structure BarDetails where
  name : String
  address : String
  phone : String
  description : String
  neighbourhood : String
  district : String
  mon : String
  tue : String
  wed : String
  thu : String
  fri : String
  sat : String
  sun : String
deriving Repr, DecidableEq

/-- The detail card's fields read from a bar row. -/
def detailFields (r : BarRecord) : BarDetails :=
  ⟨r.barName, r.address, r.phoneNumber, r.description, r.neighbourhood,
   r.cityDistrict, r.mon, r.tue, r.wed, r.thu, r.fri, r.sat, r.sun⟩

/-- The `index` handler: a stored load error short-circuits to the degraded
text response (lines 62-64); otherwise the filter pipeline, centre
computation and marker loop produce the page data. -/
def index (st : AppState) (rawQuery preference : String) :
    Except String PageModel :=
  match st.error_message with
  | some err => .error (degradedPrefix ++ err)
  | none =>
    let filtered := filterBars rawQuery preference st.bars_df
    .ok ⟨filtered, computeCenter filtered,
         filtered.map fun ir => (ir.1, markerFor ir.2)⟩

/-- The `bar_details` handler: an index outside `bars_df.index` produces the
404 response of line 204; otherwise `bars_df.loc[bar_id]` is rendered.  The
error carries the response body and the HTTP status. -/
def bar_details (st : AppState) (barId : Nat) :
    Except (String × Nat) BarDetails :=
  match st.bars_df[barId]? with
  | none => .error ("<h2>Bar not found</h2>", 404)
  | some bar => .ok (detailFields bar)

/-- One incoming HTTP request to either route. -/
inductive Request where
  | root : String → String → Request
  | bar : Nat → Request
deriving Repr, DecidableEq

/-- One response body, as data. -/
inductive Response where
  | degraded : String → Response
  | page : PageModel → Response
  | detail : BarDetails → Response
  | notFound : String → Nat → Response
deriving Repr, DecidableEq

/-- Dispatch one request against the process state.  The handlers only read
the globals (`filtered_df = bars_df.copy()` works on a copy; `bar_details`
only indexes), so the embedding returns the state each handler leaves
behind alongside the response. -/
def handle (st : AppState) : Request → Response × AppState
  | .root q p =>
    (match index st q p with
     | .error msg => .degraded msg
     | .ok page => .page page,
     st)
  | .bar i =>
    (match bar_details st i with
     | .error e => .notFound e.1 e.2
     | .ok d => .detail d,
     st)

/-- Run a sequence of requests, threading the process state. -/
def runAll (st : AppState) : List Request → List Response × AppState
  | [] => ([], st)
  | req :: reqs =>
    let r := handle st req
    let rest := runAll r.2 reqs
    (r.1 :: rest.1, rest.2)

/-! ## Concrete fixtures for the closed instantiations below -/

/-- The spec's scenario row: `{name:"Alpha Bar", R:true, F:false, lat:51.5,
lon:-0.1}`, with the remaining columns filled arbitrarily. -/
def alphaBar : BarRecord :=
  ⟨"Alpha Bar", "1 Test Street", "020 0000 0000", "A bar.", "Soho",
   "Westminster", "10-22", "10-22", "10-22", "10-22", "10-23", "10-23",
   "closed", 51.5, -0.1, true, false⟩

/-! ## Helper lemmas on the matching functions -/

/-- Anchored literal matching is exactly the prefix relation. -/
theorem matchHere_iff (p s : List Char) : matchHere p s = true ↔ p <+: s := by
  induction p generalizing s with
  | nil => exact iff_of_true rfl List.nil_prefix
  | cons a ps ih =>
    cases s with
    | nil =>
      refine iff_of_false (fun hh => ?_) (by simp)
      rw [show matchHere (a :: ps) ([] : List Char) = false from rfl] at hh
      exact absurd hh (by simp)
    | cons c cs =>
      rw [show matchHere (a :: ps) (c :: cs) = (a == c && matchHere ps cs)
        from rfl]
      simp [ih, List.cons_prefix_cons]

/-- Literal substring search is exactly the contiguous-sublist relation. -/
theorem occursIn_iff (p s : List Char) : occursIn p s = true ↔ p <:+: s := by
  induction s with
  | nil =>
    rw [show occursIn p ([] : List Char) = matchHere p [] from rfl,
      matchHere_iff]
    simp
  | cons c cs ih =>
    rw [show occursIn p (c :: cs) = (matchHere p (c :: cs) || occursIn p cs)
      from rfl]
    simp [matchHere_iff, ih, List.infix_cons_iff]

/-- On patterns without `.`, anchored regex matching is literal matching. -/
theorem reMatchHere_eq_matchHere (p s : List Char) (h : ∀ c ∈ p, c ≠ '.') :
    reMatchHere p s = matchHere p s := by
  induction p generalizing s with
  | nil => cases s <;> rfl
  | cons a ps ih =>
    cases s with
    | nil => rfl
    | cons c cs =>
      have ha : (a == '.') = false :=
        beq_eq_false_iff_ne.mpr (h a (List.mem_cons_self a ps))
      rw [show reMatchHere (a :: ps) (c :: cs) =
            ((a == c || (a == '.' && c != '\n')) && reMatchHere ps cs)
          from rfl,
        show matchHere (a :: ps) (c :: cs) = (a == c && matchHere ps cs)
          from rfl,
        ih cs fun c hc => h c (List.mem_cons_of_mem _ hc), ha]
      simp

/-- On patterns without `.`, regex search is literal substring search. -/
theorem reSearch_eq_occursIn (p s : List Char) (h : ∀ c ∈ p, c ≠ '.') :
    reSearch p s = occursIn p s := by
  induction s with
  | nil =>
    rw [show reSearch p ([] : List Char) = reMatchHere p [] from rfl,
      show occursIn p ([] : List Char) = matchHere p [] from rfl,
      reMatchHere_eq_matchHere p [] h]
  | cons c cs ih =>
    rw [show reSearch p (c :: cs) = (reMatchHere p (c :: cs) || reSearch p cs)
        from rfl,
      show occursIn p (c :: cs) = (matchHere p (c :: cs) || occursIn p cs)
        from rfl,
      reMatchHere_eq_matchHere p (c :: cs) h, ih]

/-- Lower-casing a character other than `.` cannot produce `.` (ASCII
lower-casing only moves `A`-`Z` into `a`-`z`). -/
theorem toLower_ne_dot (c : Char) (h : c ≠ '.') : c.toLower ≠ '.' := by
  have hdef : c.toLower =
      if c.toNat ≥ 65 ∧ c.toNat ≤ 90 then Char.ofNat (c.toNat + 32) else c :=
    rfl
  rw [hdef]
  split
  · rename_i hn
    obtain ⟨h1, h2⟩ := hn
    generalize c.toNat = m at h1 h2
    interval_cases m <;> decide
  · exact h

/-- The character list of a lower-cased string. -/
theorem toList_toLower (q : String) :
    q.toLower.toList = q.toList.map Char.toLower := by
  simpa [String.toLower] using congrArg String.data (String.map_eq Char.toLower q)

/-- The character-list model of lower-casing agrees with `String.toLower`. -/
theorem lowerChars_eq (s : String) : lowerChars s = s.toLower.toList :=
  (toList_toLower s).symm

/-! ## Claim theorems -/

/-- C1: the preference filter keeps exactly the records satisfying the
stated flag predicate: `r` keeps rows with the R flag true (the F flag is
unconstrained), `f` keeps rows with the F flag true, `both` keeps rows with
both flags true, `none` keeps rows with both flags false, and any
unrecognised preference string (including the empty string, i.e. ALL)
imposes no constraint and raises no error. -/
theorem preference_filter_characterization (rows : List (Nat × BarRecord)) :
    (∀ ir : Nat × BarRecord,
        ir ∈ prefFilter "r" rows ↔ ir ∈ rows ∧ ir.2.rPreference = true) ∧
    (∀ ir : Nat × BarRecord,
        ir ∈ prefFilter "f" rows ↔ ir ∈ rows ∧ ir.2.fPreference = true) ∧
    (∀ ir : Nat × BarRecord,
        ir ∈ prefFilter "both" rows ↔
          ir ∈ rows ∧ ir.2.rPreference = true ∧ ir.2.fPreference = true) ∧
    (∀ ir : Nat × BarRecord,
        ir ∈ prefFilter "none" rows ↔
          ir ∈ rows ∧ ir.2.rPreference = false ∧ ir.2.fPreference = false) ∧
    (∀ p : String, p ∉ (["r", "f", "both", "none"] : List String) →
        prefFilter p rows = rows) := by
  refine ⟨?_, ?_, ?_, ?_, ?_⟩
  · intro ir
    rw [show prefFilter "r" rows = rows.filter (fun ir => ir.2.rPreference)
      from rfl]
    simp [List.mem_filter]
  · intro ir
    rw [show prefFilter "f" rows = rows.filter (fun ir => ir.2.fPreference)
      from rfl]
    simp [List.mem_filter]
  · intro ir
    rw [show prefFilter "both" rows =
        rows.filter (fun ir => ir.2.rPreference && ir.2.fPreference) from rfl]
    simp [List.mem_filter]
  · intro ir
    rw [show prefFilter "none" rows =
        rows.filter (fun ir => !ir.2.rPreference && !ir.2.fPreference)
      from rfl]
    simp [List.mem_filter]
  · intro p hp
    simp only [List.mem_cons, List.not_mem_nil, or_false, not_or] at hp
    obtain ⟨h1, h2, h3, h4⟩ := hp
    simp [prefFilter, beq_eq_false_iff_ne.mpr h1, beq_eq_false_iff_ne.mpr h2,
      beq_eq_false_iff_ne.mpr h3, beq_eq_false_iff_ne.mpr h4]

/-- Closed instantiation of `preference_filter_characterization`: the
malformed preference string `"all"` leaves a concrete row list unchanged. -/
theorem preference_filter_characterization_witness :
    prefFilter "all" [(0, alphaBar)] = [(0, alphaBar)] :=
  (preference_filter_characterization [(0, alphaBar)]).2.2.2.2 "all"
    (by decide)

/-- C2 fails as stated: pandas `str.contains` interprets the query as a
regular expression, so the query `"."` passes the text filter on the name
`"Alpha Bar"` (the regex `.` matches any character) although `"."` is not a
substring of that name. -/
theorem text_filter_regex_counterexample :
    strContainsCF alphaBar.barName "." = true ∧
    substrCI alphaBar.barName "." = false ∧
    textFilter "." [(0, alphaBar)] = [(0, alphaBar)] := by
  refine ⟨by decide, by decide, rfl⟩

/-- C2 (amended): a record passes the text filter if and only if its name
matches the textQuery as a case-insensitive regular expression searched
anywhere in the name; when the textQuery contains no regex metacharacter
this coincides with case-insensitive substring containment, and an empty
textQuery matches every record. -/
theorem text_filter_substring_for_literal_queries :
    (∀ q name : String, (∀ c ∈ q.toList, isRegexMeta c = false) →
        (strContainsCF name q = true ↔ substrCI name q = true)) ∧
    ∀ rows : List (Nat × BarRecord), textFilter "" rows = rows := by
  constructor
  · intro q name hq
    have hdot : ∀ c ∈ lowerChars q, c ≠ '.' := by
      intro c hc
      simp only [lowerChars] at hc
      obtain ⟨d, hd, rfl⟩ := List.mem_map.mp hc
      have hdne : d ≠ '.' := by
        intro he
        subst he
        exact absurd (hq '.' hd) (by decide)
      exact toLower_ne_dot d hdne
    simp only [strContainsCF, substrCI]
    rw [reSearch_eq_occursIn _ _ hdot]
  · intro rows
    rfl

/-- Closed instantiation of `text_filter_substring_for_literal_queries` at a
metacharacter-free query and a concrete row list. -/
theorem text_filter_substring_for_literal_queries_witness :
    (strContainsCF "Alpha Bar" "alpha" = true ↔
      substrCI "Alpha Bar" "alpha" = true) ∧
    textFilter "" [(0, alphaBar)] = [(0, alphaBar)] :=
  ⟨text_filter_substring_for_literal_queries.1 "alpha" "Alpha Bar"
      (by decide),
   text_filter_substring_for_literal_queries.2 [(0, alphaBar)]⟩

/-- C3: with an empty raw query and the ALL preference (empty preference
string), the filter pipeline returns every row of the dataset, in original
order, paired with its original index. -/
theorem filter_identity_on_trivial_criteria (bars : List BarRecord) :
    filterBars "" "" bars = bars.enum := rfl

/-- The preference-filter step never reorders, duplicates or invents rows. -/
theorem prefFilter_sublist (p : String) (rows : List (Nat × BarRecord)) :
    (prefFilter p rows).Sublist rows := by
  unfold prefFilter
  repeat' split
  all_goals first
    | exact List.filter_sublist rows
    | exact List.Sublist.refl rows

/-- The text-filter step never reorders, duplicates or invents rows. -/
theorem textFilter_sublist (q : String) (rows : List (Nat × BarRecord)) :
    (textFilter q rows).Sublist rows := by
  unfold textFilter
  split
  · exact List.Sublist.refl rows
  · exact List.filter_sublist rows

/-- C4: the filter result is an ordered subsequence of the enumerated
dataset: it appears in original dataset order, has no duplicated row, and
every surviving pair carries its original index, i.e. looking that index up
in the dataset yields exactly the surviving record.  (The result may be
empty: `Sublist` permits the empty list.) -/
theorem filter_sublist_of_enum (rawQuery preference : String)
    (bars : List BarRecord) :
    (filterBars rawQuery preference bars).Sublist bars.enum ∧
    (filterBars rawQuery preference bars).Nodup ∧
    ∀ ir ∈ filterBars rawQuery preference bars, bars[ir.1]? = some ir.2 := by
  have hsub : (filterBars rawQuery preference bars).Sublist bars.enum :=
    (prefFilter_sublist preference _).trans
      (textFilter_sublist (processQuery rawQuery) bars.enum)
  have henum : bars.enum.Nodup :=
    List.Nodup.of_map Prod.fst (List.nodup_enum_map_fst bars)
  refine ⟨hsub, henum.sublist hsub, fun ir hir => ?_⟩
  have : ir ∈ bars.enum := hsub.subset hir
  exact (List.mk_mem_enum_iff_getElem? (i := ir.1) (x := ir.2)).mp this

/-- Closed instantiation of `filter_sublist_of_enum`: the surviving pair of
a concrete filtered dataset looks up correctly. -/
theorem filter_sublist_of_enum_witness :
    ([alphaBar] : List BarRecord)[(0 : Nat)]? = some alphaBar :=
  (filter_sublist_of_enum "alpha" "r" [alphaBar]).2.2 (0, alphaBar)
    (by rw [show filterBars "alpha" "r" [alphaBar] = [(0, alphaBar)] from rfl]
        exact List.mem_singleton.mpr rfl)

/-- C5: the marker is a function of the two preference flags only, and
matches the spec's 4-row table: (true, true) gives red/star, (true, false)
gives orange/lemon, (false, true) gives green/cat, and (false, false) gives
`lightgray`/`face-frown` (the folium identifiers of the table's light-gray
and frown). -/
theorem markerFor_matches_table :
    (∀ a b : BarRecord, a.rPreference = b.rPreference →
        a.fPreference = b.fPreference → markerFor a = markerFor b) ∧
    ∀ rec : BarRecord,
        markerFor rec = markerTable rec.rPreference rec.fPreference := by
  constructor
  · intro a b hr hf
    simp [markerFor, hr, hf]
  · intro rec
    cases hr : rec.rPreference <;> cases hf : rec.fPreference <;>
      simp [markerFor, markerTable, hr, hf]

/-- Closed instantiation of `markerFor_matches_table` at the scenario row
(R true, F false): the marker is orange/lemon. -/
theorem markerFor_matches_table_witness :
    markerFor alphaBar = markerFor alphaBar ∧
    markerFor alphaBar = Marker.mk "orange" "lemon" :=
  ⟨markerFor_matches_table.1 alphaBar alphaBar rfl rfl,
   markerFor_matches_table.2 alphaBar⟩

/-- C6: `bar_details` on an index inside the dataset's index space returns
exactly the stored record's fields (name, address, phone, description,
neighbourhood, district and the seven weekday hours); on an index outside
it, it returns the 404 "Bar not found" response. -/
theorem bar_details_lookup (st : AppState) (barId : Nat) :
    (∀ h : barId < st.bars_df.length,
        bar_details st barId =
          .ok (detailFields (st.bars_df.get ⟨barId, h⟩))) ∧
    (st.bars_df.length ≤ barId →
        bar_details st barId = .error ("<h2>Bar not found</h2>", 404)) := by
  constructor
  · intro h
    simp [bar_details, List.getElem?_eq_getElem h, List.get_eq_getElem]
  · intro h
    simp [bar_details, List.getElem?_eq_none h]

/-- Closed instantiation of `bar_details_lookup`: index 0 of a one-row
dataset is found, index 5 is not. -/
theorem bar_details_lookup_witness :
    bar_details ⟨[alphaBar], [], none⟩ 0 = .ok (detailFields alphaBar) ∧
    bar_details ⟨[alphaBar], [], none⟩ 5 =
      .error ("<h2>Bar not found</h2>", 404) :=
  ⟨(bar_details_lookup ⟨[alphaBar], [], none⟩ 0).1 (by decide),
   (bar_details_lookup ⟨[alphaBar], [], none⟩ 5).2 (by decide)⟩

/-- C7: if either CSV source is missing, `load_data` returns two empty
datasets plus the missing-file error (whose message names the missing
source path, witnessed by the substring checks), and every request to `/`
then returns the degraded text response containing that error. -/
theorem load_missing_file_degraded (env : DataEnv) (q p : String) :
    (env.barsExists = false →
        load_data env = ([], [], some missingBarsMsg) ∧
        index (initState env) q p =
          .error (degradedPrefix ++ missingBarsMsg)) ∧
    (env.barsExists = true → env.drinksExists = false →
        load_data env = ([], [], some missingDrinksMsg) ∧
        index (initState env) q p =
          .error (degradedPrefix ++ missingDrinksMsg)) ∧
    occursIn "data/bars.csv".toList missingBarsMsg.toList = true ∧
    occursIn "data/drinks.csv".toList missingDrinksMsg.toList = true := by
  refine ⟨fun hb => ⟨?_, ?_⟩, fun hb hd => ⟨?_, ?_⟩, by decide, by decide⟩
  · simp [load_data, hb]
  · simp [index, initState, load_data, hb]
  · simp [load_data, hb, hd]
  · simp [index, initState, load_data, hb, hd]

/-- Closed instantiation of `load_missing_file_degraded`: with the bars file
missing, startup stores empty datasets and the error, and `/` serves the
degraded message. -/
theorem load_missing_file_degraded_witness :
    load_data ⟨false, true, .ok [], .ok []⟩ = ([], [], some missingBarsMsg) ∧
    index (initState ⟨false, true, .ok [], .ok []⟩) "q" "r" =
      .error (degradedPrefix ++ missingBarsMsg) :=
  (load_missing_file_degraded ⟨false, true, .ok [], .ok []⟩ "q" "r").1 rfl

/-- C8: the map centre is the pair of arithmetic means of the filtered
rows' latitudes and longitudes; on the empty row list both components are
the degenerate `none` (pandas' `NaN` mean-of-empty) and the computation is
total, the source's two branches computing the same expression (the first
conjunct collapses the `if`). -/
theorem computeCenter_mean (rows : List (Nat × BarRecord)) :
    computeCenter rows =
      (ratMean (rows.map fun ir => ir.2.latitude),
       ratMean (rows.map fun ir => ir.2.longitude)) ∧
    (rows ≠ [] →
        computeCenter rows =
          (some ((rows.map fun ir => ir.2.latitude).sum / rows.length),
           some ((rows.map fun ir => ir.2.longitude).sum / rows.length))) ∧
    computeCenter ([] : List (Nat × BarRecord)) = (none, none) := by
  have hbranch : computeCenter rows =
      (ratMean (rows.map fun ir => ir.2.latitude),
       ratMean (rows.map fun ir => ir.2.longitude)) := by
    unfold computeCenter
    split <;> rfl
  refine ⟨hbranch, fun h => ?_, rfl⟩
  have hmap : (rows.map fun ir => ir.2.latitude) ≠ [] := by simpa using h
  have hmap2 : (rows.map fun ir => ir.2.longitude) ≠ [] := by simpa using h
  rw [hbranch]
  simp [ratMean, hmap, hmap2]

/-- Closed instantiation of `computeCenter_mean` on a one-row list: the
centre is the row's own coordinates. -/
theorem computeCenter_mean_witness :
    computeCenter [(0, alphaBar)] =
      (some (103 / 2 : Rat), some (-1 / 10 : Rat)) := by
  have h := (computeCenter_mean [(0, alphaBar)]).2.1 (by simp)
  rw [h]
  simp [alphaBar]
  norm_num

/-- C9: no request handler mutates the loaded datasets: after any sequence
of `/` and `/bar/{id}` requests with any criteria, the process state (bars,
drinks, error message) is identical to its state right after load;
filtering works on a copy of the rows. -/
theorem handlers_preserve_state (st : AppState) (reqs : List Request) :
    (runAll st reqs).2 = st ∧ ∀ req : Request, (handle st req).2 = st := by
  have hh : ∀ (s : AppState) (req : Request), (handle s req).2 = s := by
    intro s req
    cases req <;> rfl
  refine ⟨?_, hh st⟩
  induction reqs with
  | nil => rfl
  | cons r rs ih => simp [runAll, hh, ih]

/-- C10: `load_data` is not atomic for non-missing failures: when both
files exist, the bars read succeeds and the drinks read then fails (empty
data or any other error), the populated bars dataset is returned together
with an empty drinks dataset and the error. -/
theorem load_partial_on_drinks_failure (env : DataEnv)
    (bars : List BarRecord) (msg : String)
    (hb : env.barsExists = true) (hd : env.drinksExists = true)
    (hok : env.barsRead = .ok bars) :
    (env.drinksRead = .emptyData msg →
        load_data env = (bars, [], some ("Data file is empty — " ++ msg))) ∧
    (env.drinksRead = .otherError msg →
        load_data env =
          (bars, [], some ("Unexpected error loading data — " ++ msg))) := by
  constructor <;> intro hdr <;> simp [load_data, hb, hd, hok, hdr]

/-- Closed instantiation of `load_partial_on_drinks_failure`: one loaded
bar row survives a failed drinks read. -/
theorem load_partial_on_drinks_failure_witness :
    load_data ⟨true, true, .ok [alphaBar],
        .emptyData "No columns to parse from file"⟩ =
      ([alphaBar], [],
       some ("Data file is empty — No columns to parse from file")) :=
  (load_partial_on_drinks_failure
      ⟨true, true, .ok [alphaBar], .emptyData "No columns to parse from file"⟩
      [alphaBar] "No columns to parse from file" rfl rfl rfl).1 rfl

end LCW
